import Mathlib

/-!
Verification development for the gRPCContentService repository (Go, MongoDB).

The document store is embedded shallowly: the `questions` collection is a
list of `Question` documents in insertion order, and every repository
method from `internal/repository` (the version carrying the vote ledger,
`HasUserVotedOnAnswer`, `GetAnswerOwnerID`, `UpvoteAnswer`) is translated
into a pure function from the store (plus the call arguments and the
current clock value standing for `time.Now()`) to a result together with
the successor store.  Mongo specifics are rendered as follows:

* ObjectIDs are opaque strings (hex-format validation is outside every
  claim considered here, so `primitive.ObjectIDFromHex` is the identity
  on these opaque ids).
* `UpdateOne` with filter `{_id: qid}` edits the first document whose
  `_id` matches and reports the matched count (0 or 1): `updateOneQ`.
* An update with array filter `elem._id == aid` applies its edit to every
  answer element whose `_id` matches.
* `$push` appends at the end of the array, `$pull` removes every matching
  element, `$inc` adds to the counter, `$set` overwrites the field.
* Infrastructure failures of the driver are out of scope: `UpdateOne` and
  `Aggregate` themselves never fail; Go `error` results produced by the
  repository code are modelled with `Except String`.

A faithfulness point that decides several claims: the Go model struct
`models.Answer` persists its vote-record list under the bson field name
`votes` (struct tag on the `Vote` field), while `UpvoteAnswer` pushes and
pulls vote records at the document path `answers.$[elem].voted_by`.
These are two distinct fields of the stored document, so the embedded
`Answer` carries both lists, exactly as the documents do.
-/

/-- A vote record as marshalled from `models.Vote`
(bson: user_id, vote_type, voted_at). -/
structure Vote where
  user_id : String
  vote_type : String
  voted_at : Nat
deriving Repr, DecidableEq

/-- A flag record as marshalled from `models.Flag`
(bson: user_id, reason, created_at). -/
structure FlagDoc where
  user_id : String
  reason : String
  created_at : Nat
deriving Repr, DecidableEq

/-- An answer document as stored inside `Question.answers`.  `votes` is the
bson field `votes` (the list `models.Answer.Vote` decodes from); `voted_by`
is the bson field `voted_by` that `UpvoteAnswer` pushes vote records into.
Counters are `Int` because `$inc` with `-1` may pass through zero. -/
structure Answer where
  _id : String
  question_id : String
  user_id : String
  answer : String
  upvotes : Int
  downvotes : Int
  is_flagged : Bool
  flags : List FlagDoc
  votes : List Vote
  voted_by : List Vote
  created_at : Nat
  updated_at : Nat
deriving Repr, DecidableEq

/-- A question document of the `questions` collection (`models.Question`). -/
structure Question where
  _id : String
  user_id : String
  question : String
  details : String
  tags : List String
  answers : List Answer
  is_answered : Bool
  is_flagged : Bool
  flags : List FlagDoc
  created_at : Nat
  updated_at : Nat
deriving Repr, DecidableEq

/-- The `questions` collection, in insertion order. -/
abbrev Store : Type := List Question

/-- `FindOne`-style lookup: the first document whose `_id` matches. -/
def findQ (s : Store) (qid : String) : Option Question :=
  List.find? (fun q => q._id == qid) s

/-- `UpdateOne` with filter `{_id: qid}`: applies `f` to the first matching
document and returns the matched count together with the updated
collection. -/
def updateOneQ (qid : String) (f : Question → Question) : Store → Nat × Store
  | [] => (0, [])
  | q :: rest =>
    if q._id == qid then (1, f q :: rest)
    else
      let r := updateOneQ qid f rest
      (r.1, q :: r.2)

/-- The answer selected by question id and answer id (first match inside the
first matching question), used to phrase claims about one answer. -/
def findAnswerDoc (s : Store) (qid aid : String) : Option Answer :=
  match findQ s qid with
  | none => none
  | some q => List.find? (fun a => a._id == aid) q.answers

/-- Whether a repository call returned `nil` error. -/
def exOk {α : Type} : Except String α → Bool
  | .ok _ => true
  | .error _ => false

/-- `HasUserVotedOnAnswer` (repository): aggregates the question by id,
unwinds to the answer with the given id, and scans that answer's decoded
vote list — the bson field `votes` — for a record of `userID`.  An empty
cursor (question or answer absent) is the Go error `answer not found`. -/
def HasUserVotedOnAnswer (s : Store) (qid aid uid : String) :
    Except String (Bool × String) :=
  match findQ s qid with
  | none => .error "answer not found"
  | some q =>
    match List.find? (fun a => a._id == aid) q.answers with
    | none => .error "answer not found"
    | some a =>
      match List.find? (fun v => v.user_id == uid) a.votes with
      | some v => .ok (true, v.vote_type)
      | none => .ok (false, "")

/-- `GetAnswerOwnerID` (repository): projects the answers filtered to the
given id; empty cursor means `question not found`, empty filtered list
means `answer not found`, otherwise the first element's `user_id`. -/
def GetAnswerOwnerID (s : Store) (qid aid : String) : Except String String :=
  match findQ s qid with
  | none => .error "question not found"
  | some q =>
    match List.filter (fun a => a._id == aid) q.answers with
    | [] => .error "answer not found"
    | a :: _ => .ok a.user_id

/-- The first update of `UpvoteAnswer`'s switch branch:
`$inc downvotes: -1` and `$pull voted_by: {user_id: uid}` on every answer
element matching the array filter. -/
def upvoteRemoveEdit (aid uid : String) (q : Question) : Question :=
  { q with answers := q.answers.map (fun a =>
      if a._id == aid then
        { a with downvotes := a.downvotes - 1,
                 voted_by := a.voted_by.filter (fun v => !(v.user_id == uid)) }
      else a) }

/-- The second update of `UpvoteAnswer`: `$inc upvotes: 1` and
`$push voted_by: {uid, "upvote", now}`. -/
def upvoteAddEdit (aid uid : String) (now : Nat) (q : Question) : Question :=
  { q with answers := q.answers.map (fun a =>
      if a._id == aid then
        { a with upvotes := a.upvotes + 1,
                 voted_by := a.voted_by ++ [⟨uid, "upvote", now⟩] }
      else a) }

/-- `UpvoteAnswer` (repository, ledger-carrying version): consult
`HasUserVotedOnAnswer`; reject a duplicate upvote; on a recorded downvote
first issue the remove/decrement update; then issue the add/increment
update and report `question or answer not found` when it matched
nothing. -/
def UpvoteAnswer (s : Store) (qid aid uid : String) (now : Nat) :
    Except String Unit × Store :=
  match HasUserVotedOnAnswer s qid aid uid with
  | .error e => (.error e, s)
  | .ok hv =>
    if hv.1 && hv.2 == "upvote" then (.error "already upvoted", s)
    else
      let s1 := if hv.1 && hv.2 == "downvote"
        then (updateOneQ qid (upvoteRemoveEdit aid uid) s).2
        else s
      let r2 := updateOneQ qid (upvoteAddEdit aid uid now) s1
      if r2.1 = 0 then (.error "question or answer not found", r2.2)
      else (.ok (), r2.2)

/-- The single update of `DownvoteAnswer`: `$inc downvotes: 1` on every
answer element matching the array filter. -/
def downvoteIncEdit (aid : String) (q : Question) : Question :=
  { q with answers := q.answers.map (fun a =>
      if a._id == aid then { a with downvotes := a.downvotes + 1 } else a) }

/-- `DownvoteAnswer` (repository): one array-filtered `$inc` with no user
id, no ledger consultation and no record written; `question or answer not
found` only when the question filter matched nothing. -/
def DownvoteAnswer (s : Store) (qid aid : String) :
    Except String Unit × Store :=
  let r := updateOneQ qid (downvoteIncEdit aid) s
  if r.1 = 0 then (.error "question or answer not found", r.2)
  else (.ok (), r.2)

/-- The composite mutation that a successful `UpvoteAnswer` is meant to
commit as one unit: the conditional remove/decrement edit of the switch
branch (decided from the pre-state ledger read) composed with the
add/increment edit.  Used to state the all-or-nothing property: the
operation's successor store is either the untouched store or this full
composite, never a proper intermediate. -/
def upvoteFullMutation (s : Store) (qid aid uid : String) (now : Nat) : Store :=
  let doSwitch :=
    match HasUserVotedOnAnswer s qid aid uid with
    | .ok hv => hv.1 && hv.2 == "downvote"
    | .error _ => false
  let s1 := if doSwitch then (updateOneQ qid (upvoteRemoveEdit aid uid) s).2 else s
  (updateOneQ qid (upvoteAddEdit aid uid now) s1).2

/-- The full mutation of `DownvoteAnswer`: its single array-filtered
increment update. -/
def downvoteFullMutation (s : Store) (qid aid : String) : Store :=
  (updateOneQ qid (downvoteIncEdit aid) s).2

/-- The update of `FlagQuestion`: `$push flags` and `$set is_flagged`. -/
def flagQuestionEdit (uid reason : String) (now : Nat) (q : Question) : Question :=
  { q with flags := q.flags ++ [⟨uid, reason, now⟩], is_flagged := true }

/-- `FlagQuestion` (repository): push the flag record and set the cached
boolean in one update; `question not found` when nothing matched. -/
def FlagQuestion (s : Store) (qid uid reason : String) (now : Nat) :
    Except String Unit × Store :=
  let r := updateOneQ qid (flagQuestionEdit uid reason now) s
  if r.1 = 0 then (.error "question not found", r.2) else (.ok (), r.2)

/-- The update of `FlagAnswer`: `$push answers.$[elem].flags` and
`$set answers.$[elem].is_flagged` on every matching answer element. -/
def flagAnswerEdit (aid uid reason : String) (now : Nat) (q : Question) : Question :=
  { q with answers := q.answers.map (fun a =>
      if a._id == aid then
        { a with flags := a.flags ++ [⟨uid, reason, now⟩], is_flagged := true }
      else a) }

/-- `FlagAnswer` (repository): one array-filtered update pushing the flag
and setting the boolean; `question or answer not found` only when the
question filter matched nothing. -/
def FlagAnswer (s : Store) (qid aid uid reason : String) (now : Nat) :
    Except String Unit × Store :=
  let r := updateOneQ qid (flagAnswerEdit aid uid reason now) s
  if r.1 = 0 then (.error "question or answer not found", r.2) else (.ok (), r.2)

/-- The `FlagAnswer` RPC handler of the earlier service version
(src/unnamed/part_000): validates answer id, user id and reason as
required, then calls the repository with `req.AnswerID` in the reason
position — the validated `req.Reason` is discarded. -/
def ServiceFlagAnswer (s : Store) (questionID answerID userID reason : String)
    (now : Nat) : (Bool × String) × Store :=
  if answerID == "" || userID == "" || reason == "" then
    ((false, "answer_id, user_id, and reason are required"), s)
  else
    match FlagAnswer s questionID answerID userID answerID now with
    | (.error e, s1) => ((false, "Failed to flag answer: " ++ e), s1)
    | (.ok _, s1) => ((true, "Answer flagged successfully"), s1)

/-- `validatePostAnswer` (internal/service): presence of question id,
answer text and user id, and a 20-character minimum on the raw text. -/
def validatePostAnswer (questionID answerText userID : String) :
    Except String Unit :=
  if questionID == "" || answerText == "" || userID == "" then
    .error "question_id, answer, and user_id are required"
  else if answerText.length < 20 then
    .error "answer must be at least 20 characters long"
  else .ok ()

/-- The update of `PostAnswer`: `$push answers`. -/
def postAnswerEdit (a : Answer) (q : Question) : Question :=
  { q with answers := q.answers ++ [a] }

/-- `PostAnswer` (repository): assign a fresh id and creation time to the
answer, push it onto the question's answer list; `question not found`
when nothing matched.  The fresh ObjectID is passed as `newId`. -/
def PostAnswer (s : Store) (questionID : String) (ans : Answer)
    (newId : String) (now : Nat) : Except String Unit × Store :=
  let a := { ans with _id := newId, created_at := now }
  let r := updateOneQ questionID (postAnswerEdit a) s
  if r.1 = 0 then (.error "question not found", r.2) else (.ok (), r.2)

/-- The answer document the `PostAnswerByQuestionID` handler constructs
(internal/service): the acting user, the trimmed text, zeroed counters and
empty flag list; the repository then overwrites `_id` and `created_at`. -/
def newAnswerDoc (userID answerText : String) (now : Nat) : Answer :=
  { _id := "", question_id := "", user_id := userID,
    answer := answerText.trim, upvotes := 0, downvotes := 0,
    is_flagged := false, flags := [], votes := [], voted_by := [],
    created_at := now, updated_at := now }

/-- The `PostAnswerByQuestionID` RPC handler of internal/service: field
validation, then straight to `PostAnswer`.  The self-answer ownership
check present in the source is commented out, so no comparison with the
question's author happens. -/
def PostAnswerByQuestionID (s : Store) (questionID answerText userID : String)
    (newId : String) (now : Nat) : (Bool × String) × Store :=
  match validatePostAnswer questionID answerText userID with
  | .error e => ((false, e), s)
  | .ok _ =>
    match PostAnswer s questionID (newAnswerDoc userID answerText now) newId now with
    | (.error e, s1) => ((false, "Failed to post answer: " ++ e), s1)
    | (.ok _, s1) => ((true, "Answer posted successfully"), s1)

/-- The sort order of the feed query: `created_at` descending. -/
def feedLE (a b : Question) : Prop := b.created_at ≤ a.created_at

instance : DecidableRel feedLE := fun a b => Nat.decLe b.created_at a.created_at

instance : IsTotal Question feedLE :=
  ⟨fun a b => Nat.le_total b.created_at a.created_at⟩

instance : IsTrans Question feedLE :=
  ⟨fun _ _ _ h1 h2 => Nat.le_trans h2 h1⟩

/-- `GetUserFeed` (repository): `Find` over the whole collection with sort
`created_at: -1` and limit 50.  The `userID` argument is received and
never used, exactly as in the source. -/
def GetUserFeed (s : Store) (userID : String) : List Question :=
  (List.insertionSort feedLE s).take 50

/-- Vote records of one user inside a record list. -/
def votesOfUser (vs : List Vote) (u : String) : List Vote :=
  vs.filter (fun v => v.user_id == u)

/-- Vote records of one kind inside a record list. -/
def votesOfKind (vs : List Vote) (k : String) : List Vote :=
  vs.filter (fun v => v.vote_type == k)

/-- Concrete answer `a1` authored by bob with empty ledgers and zero
counters, for the concrete evaluations. -/
def ans0 : Answer :=
  { _id := "a1", question_id := "q1", user_id := "bob",
    answer := "the answer text used in tests", upvotes := 0, downvotes := 0,
    is_flagged := false, flags := [], votes := [], voted_by := [],
    created_at := 1, updated_at := 1 }

/-- Concrete question `q1` authored by alice holding `ans0`. -/
def qu0 : Question :=
  { _id := "q1", user_id := "alice", question := "a question of alice",
    details := "", tags := [], answers := [ans0], is_answered := false,
    is_flagged := false, flags := [], created_at := 1, updated_at := 1 }

/-- A store with the single question `qu0`. -/
def store0 : Store := [qu0]

/-- `ans0` in the state where carol's downvote is recorded in the decoded
ledger field `votes` and the downvote counter matches it. -/
def ans1 : Answer := { ans0 with votes := [⟨"carol", "downvote", 1⟩], downvotes := 1 }

/-- `qu0` holding `ans1`. -/
def qu1 : Question := { qu0 with answers := [ans1] }

/-- A store with the single question `qu1`. -/
def store1 : Store := [qu1]

/-! ### Helper lemmas about the store primitives -/

/-- The matched count of `updateOneQ` is 1 exactly when the id lookup
succeeds, and does not depend on the edit. -/
theorem updateOneQ_fst (qid : String) (f : Question → Question) (s : Store) :
    (updateOneQ qid f s).1 = if findQ s qid = none then 0 else 1 := by
  induction s with
  | nil => rfl
  | cons q rest ih =>
    cases h : q._id == qid with
    | true => simp [updateOneQ, findQ, List.find?_cons_of_pos, h]
    | false =>
      simp only [updateOneQ, h, Bool.false_eq_true, if_false]
      rw [ih]
      have : findQ (q :: rest) qid = findQ rest qid := by
        simp [findQ, List.find?_cons_of_neg, h]
      rw [this]

/-- An update that matched nothing leaves the collection unchanged. -/
theorem updateOneQ_snd_of_none (qid : String) (f : Question → Question)
    (s : Store) (h : findQ s qid = none) : (updateOneQ qid f s).2 = s := by
  induction s with
  | nil => rfl
  | cons q rest ih =>
    cases hq : q._id == qid with
    | true => simp [findQ, List.find?_cons_of_pos, hq] at h
    | false =>
      have h' : findQ rest qid = none := by
        simpa [findQ, List.find?_cons_of_neg, hq] using h
      simp [updateOneQ, hq, ih h']

/-- Looking the id up after an id-preserving update returns the edited
document. -/
theorem findQ_updateOneQ (qid : String) (f : Question → Question) (s : Store)
    (q : Question) (hf : ∀ x, (f x)._id = x._id) (h : findQ s qid = some q) :
    findQ (updateOneQ qid f s).2 qid = some (f q) := by
  induction s with
  | nil => simp [findQ] at h
  | cons q0 rest ih =>
    cases hq : q0._id == qid with
    | true =>
      have : q0 = q := by
        simpa [findQ, List.find?_cons_of_pos, hq] using h
      subst this
      have : (f q0)._id == qid := by rw [hf q0]; exact hq
      simp [updateOneQ, hq, findQ, List.find?_cons_of_pos, this]
    | false =>
      have h' : findQ rest qid = some q := by
        simpa [findQ, List.find?_cons_of_neg, hq] using h
      simp only [updateOneQ, hq, Bool.false_eq_true, if_false]
      show findQ (q0 :: (updateOneQ qid f rest).2) qid = some (f q)
      rw [findQ, List.find?_cons_of_neg _ (by simp [hq])]
      exact ih h'

/-- An update whose edit fixes the matched document leaves the collection
unchanged. -/
theorem updateOneQ_snd_of_fix (qid : String) (f : Question → Question)
    (s : Store) (q : Question) (h : findQ s qid = some q) (hfix : f q = q) :
    (updateOneQ qid f s).2 = s := by
  induction s with
  | nil => simp [findQ] at h
  | cons q0 rest ih =>
    cases hq : q0._id == qid with
    | true =>
      have : q0 = q := by
        simpa [findQ, List.find?_cons_of_pos, hq] using h
      subst this
      simp [updateOneQ, hq, hfix]
    | false =>
      have h' : findQ rest qid = some q := by
        simpa [findQ, List.find?_cons_of_neg, hq] using h
      simp [updateOneQ, hq, ih h']

/-- A successful ledger read means the question id resolves. -/
theorem hasVoted_ok_findQ (s : Store) (qid aid uid : String)
    (hv : Bool × String) (h : HasUserVotedOnAnswer s qid aid uid = .ok hv) :
    findQ s qid ≠ none := by
  intro hn
  rw [HasUserVotedOnAnswer, hn] at h
  exact Except.noConfusion h

/-- When the targeted answer does not resolve, the ledger read is the Go
error `answer not found`. -/
theorem findAnswerDoc_none_hasVoted (s : Store) (qid aid uid : String)
    (h : findAnswerDoc s qid aid = none) :
    HasUserVotedOnAnswer s qid aid uid = .error "answer not found" := by
  rw [HasUserVotedOnAnswer]
  cases hq : findQ s qid with
  | none => rfl
  | some q =>
    have h2 : List.find? (fun a => a._id == aid) q.answers = none := by
      rw [findAnswerDoc, hq] at h; exact h
    simp [h2]

/-- A failing `find?` forces an empty `filter`. -/
theorem find?_none_filter_nil {α : Type} (p : α → Bool) (l : List α)
    (h : List.find? p l = none) : List.filter p l = [] :=
  List.filter_eq_nil_iff.mpr (by simpa using List.find?_eq_none.mp h)

/-- A guarded map whose guard never fires is the identity. -/
theorem map_if_id {α : Type} (p : α → Bool) (g : α → α) (l : List α)
    (h : ∀ a ∈ l, p a = false) :
    l.map (fun a => if p a then g a else a) = l := by
  induction l with
  | nil => rfl
  | cons a rest ih =>
    have ha : p a = false := h a (List.mem_cons_self a rest)
    simp only [List.map_cons, ha, Bool.false_eq_true, if_false, List.cons.injEq,
      true_and]
    exact ih (fun x hx => h x (List.mem_cons_of_mem a hx))

/-! ### Claim theorems -/

/-- Claim C1 (code bug): the at-most-one-vote-record-per-user invariant is
broken by the code.  Starting from a store whose only answer has an empty
ledger, user carol upvotes the same answer twice; both calls report
success, and afterwards the vote-record array the code writes
(`voted_by`) holds two records for carol while the decoded ledger field
(`votes`) that the duplicate check reads stays empty, with `upvotes` at 2. -/
theorem c1_second_vote_by_same_user_recorded_again :
    exOk (UpvoteAnswer store0 "q1" "a1" "carol" 5).1 = true ∧
    exOk (UpvoteAnswer (UpvoteAnswer store0 "q1" "a1" "carol" 5).2
      "q1" "a1" "carol" 6).1 = true ∧
    (findAnswerDoc (UpvoteAnswer (UpvoteAnswer store0 "q1" "a1" "carol" 5).2
        "q1" "a1" "carol" 6).2 "q1" "a1").map
      (fun a => ((votesOfUser a.voted_by "carol").length, a.upvotes,
                 a.votes.length))
      = some (2, 2, 0) := by
  decide

/-- Claim C2 (code bug): counter/ledger consistency fails.  One successful
`DownvoteAnswer` on the fresh answer sets `downvotes` to 1 while no
downvote record exists in either vote-record field of the document. -/
theorem c2_downvote_counter_without_ledger_record :
    exOk (DownvoteAnswer store0 "q1" "a1").1 = true ∧
    (findAnswerDoc (DownvoteAnswer store0 "q1" "a1").2 "q1" "a1").map
      (fun a => (a.downvotes, (votesOfKind a.votes "downvote").length,
                 (votesOfKind a.voted_by "downvote").length))
      = some (1, 0, 0) := by
  decide

/-- Claim C3 (code bug): a vote switch does not leave exactly one record
of the new kind.  With carol's downvote recorded in the ledger field the
code reads (`votes`, counter in sync), her upvote request triggers the
switch branch; the counters move as specified (`upvotes` 0 to 1,
`downvotes` 1 to 0) but the removal pulls from `voted_by`, so the old
downvote record survives in `votes` next to the new upvote record in
`voted_by` — two records for carol, the old kind still present. -/
theorem c3_switch_leaves_old_record_behind :
    exOk (UpvoteAnswer store1 "q1" "a1" "carol" 5).1 = true ∧
    findAnswerDoc (UpvoteAnswer store1 "q1" "a1" "carol" 5).2 "q1" "a1" =
      some { ans0 with
               upvotes := 1
               downvotes := 0
               votes := [⟨"carol", "downvote", 1⟩]
               voted_by := [⟨"carol", "upvote", 5⟩] } := by
  decide

/-- Claim C4 (code bug): a duplicate vote of the same kind is not
rejected.  With carol's downvote recorded on the answer, a second
downvote request returns success (no Conflict) and moves `downvotes` from
1 to 2 — `DownvoteAnswer` does not even receive the user id. -/
theorem c4_duplicate_downvote_not_rejected :
    (findAnswerDoc store1 "q1" "a1").map
      (fun a => votesOfUser a.votes "carol") =
      some [⟨"carol", "downvote", 1⟩] ∧
    exOk (DownvoteAnswer store1 "q1" "a1").1 = true ∧
    (findAnswerDoc (DownvoteAnswer store1 "q1" "a1").2 "q1" "a1").map
      (fun a => a.downvotes) = some 2 := by
  decide

/-- Claim C5 (code bug): self-voting is not rejected.  bob is the author
of answer `a1`; his upvote on his own answer reports success, increments
`upvotes` and records his vote — no ownership comparison happens anywhere
on the vote path (`GetAnswerOwnerID` has no caller). -/
theorem c5_self_vote_accepted :
    ans0.user_id = "bob" ∧
    exOk (UpvoteAnswer store0 "q1" "a1" "bob" 5).1 = true ∧
    (findAnswerDoc (UpvoteAnswer store0 "q1" "a1" "bob" 5).2 "q1" "a1").map
      (fun a => (a.upvotes, a.voted_by)) =
      some (1, [⟨"bob", "upvote", 5⟩]) := by
  decide

/-- Claim C7, counterexample: `DownvoteAnswer` on an existing question but
a nonexistent answer id returns success (nil error) instead of the
NotFound failure the claim requires; the store is untouched. -/
theorem c7_counterexample_missing_answer_downvote_succeeds :
    findAnswerDoc store0 "q1" "zz" = none ∧
    exOk (DownvoteAnswer store0 "q1" "zz").1 = true ∧
    (DownvoteAnswer store0 "q1" "zz").2 = store0 := by
  decide

/-- Claim C8 (code bug): flagging an answer through the service handler
stores the answer id in place of the reason.  The handler validates that
the reason is present, then passes `req.AnswerID` as the reason argument:
flagging answer `a1` with reason `spam` appends the record
`{dave, a1, 7}`, not `{dave, spam, 7}` (the `is_flagged` bit and the
single append are as claimed). -/
theorem c8_flag_reason_replaced_by_answer_id :
    (ServiceFlagAnswer store0 "q1" "a1" "dave" "spam" 7).1.1 = true ∧
    (findAnswerDoc (ServiceFlagAnswer store0 "q1" "a1" "dave" "spam" 7).2
        "q1" "a1").map (fun a => (a.is_flagged, a.flags)) =
      some (true, [⟨"dave", "a1", 7⟩]) := by
  decide

/-- Claim C9, counterexample: alice authored question `q1`, and her own
`PostAnswerByQuestionID` request passes intake and appends the answer —
the self-answer rejection is absent (commented out in the source). -/
theorem c9_counterexample_self_answer_accepted :
    qu0.user_id = "alice" ∧
    (PostAnswerByQuestionID store0 "q1" "this text is long enough ok"
      "alice" "a2" 9).1.1 = true ∧
    (findQ (PostAnswerByQuestionID store0 "q1" "this text is long enough ok"
        "alice" "a2" 9).2 "q1").map (fun q => q.answers.length) = some 2 := by
  decide

/-- Claim C6 (confirmed): in the sequential semantics every vote mutation
is all-or-nothing.  `UpvoteAnswer` either reports an error and leaves the
store exactly as it was, or reports success and the store carries the full
composite mutation (the conditional remove/decrement edit together with
the add/increment edit); `DownvoteAnswer` likewise.  No call returns
success with only part of its mutation applied. -/
theorem c6_vote_mutation_all_or_nothing :
    (∀ (s : Store) (qid aid uid : String) (now : Nat),
      (exOk (UpvoteAnswer s qid aid uid now).1 = true ∧
        (UpvoteAnswer s qid aid uid now).2 = upvoteFullMutation s qid aid uid now) ∨
      (exOk (UpvoteAnswer s qid aid uid now).1 = false ∧
        (UpvoteAnswer s qid aid uid now).2 = s)) ∧
    (∀ (s : Store) (qid aid : String),
      (exOk (DownvoteAnswer s qid aid).1 = true ∧
        (DownvoteAnswer s qid aid).2 = downvoteFullMutation s qid aid) ∨
      (exOk (DownvoteAnswer s qid aid).1 = false ∧
        (DownvoteAnswer s qid aid).2 = s)) := by
  constructor
  · intro s qid aid uid now
    cases h : HasUserVotedOnAnswer s qid aid uid with
    | error e =>
      right
      simp [UpvoteAnswer, h, exOk]
    | ok hv =>
      obtain ⟨b, vt⟩ := hv
      have hfind : findQ s qid ≠ none := hasVoted_ok_findQ s qid aid uid _ h
      obtain ⟨q, hq⟩ := Option.ne_none_iff_exists'.mp hfind
      by_cases hdup : (b && vt == "upvote") = true
      · right
        simp [UpvoteAnswer, h, hdup, exOk]
      · left
        cases hsw : (b && vt == "downvote") with
        | true =>
          have hq1 := findQ_updateOneQ qid (upvoteRemoveEdit aid uid) s q
            (fun x => rfl) hq
          have hfst : (updateOneQ qid (upvoteAddEdit aid uid now)
              (updateOneQ qid (upvoteRemoveEdit aid uid) s).2).1 = 1 := by
            rw [updateOneQ_fst, hq1]; simp
          simp [UpvoteAnswer, upvoteFullMutation, h, hdup, hsw, hfst, exOk]
        | false =>
          have hfst : (updateOneQ qid (upvoteAddEdit aid uid now) s).1 = 1 := by
            rw [updateOneQ_fst, hq]; simp
          simp [UpvoteAnswer, upvoteFullMutation, h, hdup, hsw, hfst, exOk]
  · intro s qid aid
    by_cases h : findQ s qid = none
    · right
      have h0 : (updateOneQ qid (downvoteIncEdit aid) s).1 = 0 := by
        rw [updateOneQ_fst]; simp [h]
      simp [DownvoteAnswer, h0, exOk, updateOneQ_snd_of_none qid _ s h]
    · left
      have h1 : (updateOneQ qid (downvoteIncEdit aid) s).1 = 1 := by
        rw [updateOneQ_fst]; simp [h]
      simp [DownvoteAnswer, downvoteFullMutation, h1, exOk]

/-- Claim C7 (amended): `UpvoteAnswer` and `GetAnswerOwnerID` fail with a
NotFound error and mutate nothing whenever the question or the named
answer inside it does not resolve, and proceed only when both exist;
`DownvoteAnswer` fails with NotFound and mutates nothing only when the
question is absent — when the question exists but the answer id does not,
its matched-count check cannot see the missing array element, so it
returns success while changing nothing. -/
theorem c7_amended_notfound_behavior :
    ∀ (s : Store) (qid aid uid : String) (now : Nat),
      (findAnswerDoc s qid aid = none →
        exOk (UpvoteAnswer s qid aid uid now).1 = false ∧
        (UpvoteAnswer s qid aid uid now).2 = s ∧
        exOk (GetAnswerOwnerID s qid aid) = false) ∧
      (findQ s qid = none →
        exOk (DownvoteAnswer s qid aid).1 = false ∧
        (DownvoteAnswer s qid aid).2 = s) ∧
      (∀ q : Question, findQ s qid = some q → findAnswerDoc s qid aid = none →
        exOk (DownvoteAnswer s qid aid).1 = true ∧
        (DownvoteAnswer s qid aid).2 = s) := by
  intro s qid aid uid now
  refine ⟨?_, ?_, ?_⟩
  · intro h
    have hvote := findAnswerDoc_none_hasVoted s qid aid uid h
    refine ⟨by simp [UpvoteAnswer, hvote, exOk], by simp [UpvoteAnswer, hvote], ?_⟩
    rw [GetAnswerOwnerID]
    cases hq : findQ s qid with
    | none => rfl
    | some q =>
      have h2 : List.find? (fun a => a._id == aid) q.answers = none := by
        rw [findAnswerDoc, hq] at h; exact h
      simp [find?_none_filter_nil _ _ h2, exOk]
  · intro h
    have h0 : (updateOneQ qid (downvoteIncEdit aid) s).1 = 0 := by
      rw [updateOneQ_fst]; simp [h]
    exact ⟨by simp [DownvoteAnswer, h0, exOk],
           by simp [DownvoteAnswer, h0, updateOneQ_snd_of_none qid _ s h]⟩
  · intro q hq h
    have h2 : List.find? (fun a => a._id == aid) q.answers = none := by
      rw [findAnswerDoc, hq] at h; exact h
    have hfix : downvoteIncEdit aid q = q := by
      rw [downvoteIncEdit]
      rw [map_if_id _ _ _ (by simpa using List.find?_eq_none.mp h2)]
    have h1 : (updateOneQ qid (downvoteIncEdit aid) s).1 = 1 := by
      rw [updateOneQ_fst, hq]; simp
    exact ⟨by simp [DownvoteAnswer, h1, exOk],
           by simp [DownvoteAnswer, h1, updateOneQ_snd_of_fix qid _ s q hq hfix]⟩

/-- Witness for C7 (amended) at concrete inputs: question `q1` with no
answer `zz` makes `UpvoteAnswer` and `GetAnswerOwnerID` fail without
mutation while `DownvoteAnswer` succeeds without mutation, and the empty
store makes `DownvoteAnswer` fail without mutation. -/
theorem c7_amended_notfound_behavior_witness :
    (exOk (UpvoteAnswer store0 "q1" "zz" "carol" 5).1 = false ∧
      (UpvoteAnswer store0 "q1" "zz" "carol" 5).2 = store0 ∧
      exOk (GetAnswerOwnerID store0 "q1" "zz") = false) ∧
    (exOk (DownvoteAnswer ([] : Store) "q1" "zz").1 = false ∧
      (DownvoteAnswer ([] : Store) "q1" "zz").2 = ([] : Store)) ∧
    (exOk (DownvoteAnswer store0 "q1" "zz").1 = true ∧
      (DownvoteAnswer store0 "q1" "zz").2 = store0) :=
  ⟨(c7_amended_notfound_behavior store0 "q1" "zz" "carol" 5).1 rfl,
   (c7_amended_notfound_behavior ([] : Store) "q1" "zz" "carol" 5).2.1 rfl,
   (c7_amended_notfound_behavior store0 "q1" "zz" "carol" 5).2.2 qu0 rfl rfl⟩

/-- Claim C9 (amended): a `PostAnswerByQuestionID` request that passes
field validation is accepted regardless of authorship — in particular
when the acting user is the question's author — and the answer is
appended to the question; the self-answer check is commented out in the
handler. -/
theorem c9_amended_self_answer_accepted :
    ∀ (s : Store) (qid answerText uid nid : String) (now : Nat) (q : Question),
      findQ s qid = some q → uid = q.user_id →
      validatePostAnswer qid answerText uid = Except.ok () →
      (PostAnswerByQuestionID s qid answerText uid nid now).1.1 = true ∧
      findQ (PostAnswerByQuestionID s qid answerText uid nid now).2 qid =
        some { q with answers := q.answers ++
          [{ newAnswerDoc uid answerText now with _id := nid, created_at := now }] } := by
  intro s qid answerText uid nid now q hq huid hval
  have h1 : (updateOneQ qid
      (postAnswerEdit { newAnswerDoc uid answerText now with _id := nid, created_at := now }) s).1 = 1 := by
    rw [updateOneQ_fst, hq]; simp
  have h2 := findQ_updateOneQ qid
    (postAnswerEdit { newAnswerDoc uid answerText now with _id := nid, created_at := now })
    s q (fun x => rfl) hq
  constructor
  · simp [PostAnswerByQuestionID, hval, PostAnswer, h1]
  · simp [PostAnswerByQuestionID, hval, PostAnswer, h1, h2, postAnswerEdit]

/-- Witness for C9 (amended): alice, the author of `q1`, posts a valid
answer to her own question; the request succeeds and her answer lands at
the end of the answer list. -/
theorem c9_amended_self_answer_accepted_witness :
    (PostAnswerByQuestionID store0 "q1" "this text is long enough ok"
      "alice" "a2" 9).1.1 = true ∧
    findQ (PostAnswerByQuestionID store0 "q1" "this text is long enough ok"
        "alice" "a2" 9).2 "q1" =
      some { qu0 with answers := qu0.answers ++
        [{ newAnswerDoc "alice" "this text is long enough ok" 9 with
             _id := "a2"
             created_at := 9 }] } :=
  c9_amended_self_answer_accepted store0 "q1" "this text is long enough ok"
    "alice" "a2" 9 qu0 rfl rfl rfl

/-- Claim C10 (confirmed): the feed is independent of the requesting
user — `GetUserFeed` ignores its `userID` argument, returning for any two
users the same newest-first list of at most 50 questions across all
users. -/
theorem c10_feed_independent_of_user :
    ∀ (s : Store) (u1 u2 : String),
      GetUserFeed s u1 = GetUserFeed s u2 ∧
      (GetUserFeed s u1).length ≤ 50 ∧
      List.Sorted feedLE (GetUserFeed s u1) := by
  intro s u1 u2
  refine ⟨rfl, List.length_take_le 50 _, ?_⟩
  exact List.Pairwise.sublist (List.take_sublist 50 _)
    (List.sorted_insertionSort feedLE s)
